import Mathlib

/-!
# Verification of BioSeqsee (chromosome normalization, BED records, header detection)

Shallow embedding of `src/bioseqsee/bedtool.py` and `src/bioseqsee/common.py`.

Python semantics modelled explicitly:
* strings are Lean `String`s, manipulated through `List Char` primitives that
  mirror the exact Python `str` methods used by the source (`lstrip`/`rstrip`
  with a character *set*, `split` with and without a separator, `strip`,
  `lower`, `upper`, `startswith`, `int(...)` parsing);
* Python exceptions become an explicit error type `PyErr`, and fallible
  functions return `Except PyErr _`;
* the file object consumed by `check_title` is a finite list of lines (each
  line carries its trailing newline, as `readline` returns it) together with
  a position, which for this function is always a whole-line index: every
  `tell`/`seek` in the source happens at a line boundary.  `readline` past
  the end returns `""` and leaves the position unchanged, like a real file.
* `dict` objects are association lists where the newest write is consulted
  first (Python: last write wins).

Caveats (stated once, relied on below):
* ASCII case mapping is used for `lower`/`upper` (the inputs of interest are
  ASCII); digit-separator underscores of Python `int` are not modelled (no
  call site can pass them);
* `re.match(pattern, s)` is modelled for patterns that are plain literals
  (no regex metacharacters), where an anchored match is exactly a prefix
  test; all theorems below use such patterns only;
* `check_title` is modelled for a nonempty `header_mark` and for
  `min_col_num ≥ 1` (with an empty mark or `min_col_num = 0` the Python
  source loops forever or hits an unbound local);
* the source stores bookkeeping entries under dotted keys (`.len`,
  `.header`, ...) in the same dict as the column lookup; the model keeps
  them as structure fields, which is faithful for column names and patterns
  that do not start with a dot (none of the claims involves dotted names).
-/

/-! ## Python string primitives -/

/-- Python ASCII whitespace, the characters removed by `str.strip()` and
separating fields for `str.split()` with no argument. -/
def pyIsSpace (c : Char) : Bool :=
  c == ' ' || c == '\t' || c == '\n' || c == '\r' || c == Char.ofNat 11 || c == Char.ofNat 12

/-- Python `s.lstrip(set)`: drop leading characters belonging to `set`
(a character *set*, not a prefix -- this is the behaviour of `str.lstrip`
with a string argument). -/
def pyLstripChars (set : String) (s : String) : String :=
  String.mk (s.toList.dropWhile (fun c => set.toList.contains c))

/-- Python `s.rstrip(set)`: drop trailing characters belonging to `set`. -/
def pyRstripChars (set : String) (s : String) : String :=
  String.mk ((s.toList.reverse.dropWhile (fun c => set.toList.contains c)).reverse)

/-- Python `s.strip()` (no argument): trim whitespace from both ends. -/
def pyStrip (s : String) : String :=
  String.mk (((s.toList.dropWhile pyIsSpace).reverse.dropWhile pyIsSpace).reverse)

/-- Python `s.lower()` (ASCII). -/
def pyLower (s : String) : String :=
  String.mk (s.toList.map Char.toLower)

/-- Python `s.upper()` (ASCII). -/
def pyUpper (s : String) : String :=
  String.mk (s.toList.map Char.toUpper)

/-- Python `s.startswith(p)`. -/
def pyStartsWith (s p : String) : Bool :=
  p.toList.isPrefixOf s.toList

/-- Helper for `pySplitChar`: split a character list at every occurrence of
`sep`, keeping empty pieces (Python `str.split(sep)` semantics). -/
def pySplitCharAux (sep : Char) : List Char → List Char → List (List Char)
  | [], acc => [acc.reverse]
  | c :: rest, acc =>
    if c == sep then acc.reverse :: pySplitCharAux sep rest []
    else pySplitCharAux sep rest (c :: acc)

/-- Python `s.split(sep)` for a one-character separator: empty pieces are
kept, and the empty string yields `[""]` (never `[]`). -/
def pySplitChar (sep : Char) (s : String) : List String :=
  (pySplitCharAux sep s.toList []).map String.mk

/-- Helper for `pySplitWs`: split at whitespace runs, discarding empties. -/
def pySplitWsAux : List Char → List Char → List (List Char)
  | [], [] => []
  | [], acc => [acc.reverse]
  | c :: rest, acc =>
    if pyIsSpace c then
      (if acc.isEmpty then pySplitWsAux rest [] else acc.reverse :: pySplitWsAux rest [])
    else pySplitWsAux rest (c :: acc)

/-- Python `s.split()` (no argument): split on whitespace runs, with no
empty fields; the empty string yields `[]`. -/
def pySplitWs (s : String) : List String :=
  (pySplitWsAux s.toList []).map String.mk

/-- Digit-string to number, `none` unless the string is nonempty and all
decimal digits. -/
def pyDigits : List Char → Option Nat
  | [] => none
  | ds =>
    if ds.all Char.isDigit then
      some (ds.foldl (fun a c => a * 10 + (c.toNat - 48)) 0)
    else none

/-- Python `int(s)` on a string: surrounding whitespace is ignored, an
optional single sign is allowed, the rest must be decimal digits;
`none` models the `ValueError` raised otherwise. -/
def pyInt (s : String) : Option Int :=
  let t := ((s.toList.dropWhile pyIsSpace).reverse.dropWhile pyIsSpace).reverse
  match t with
  | '+' :: ds => (pyDigits ds).map (fun n => (n : Int))
  | '-' :: ds => (pyDigits ds).map (fun n => -(n : Int))
  | ds => (pyDigits ds).map (fun n => (n : Int))

/-- First index of `x` in `L` -- Python `L.index(x)` (call sites below only
use it when `x ∈ L`). -/
def pyIndex : List String → String → Nat
  | [], _ => 0
  | a :: t, x => if a == x then 0 else pyIndex t x + 1

/-! Sanity checks of the primitives against Python behaviour. -/

example : pySplitChar '\t' "" = [""] := by decide
example : pySplitChar '\t' "a\t\tb" = ["a", "", "b"] := by decide
example : pySplitWs "c\tx\ty" = ["c", "x", "y"] := by decide
example : pySplitWs "" = [] := by decide
example : pyLstripChars "chr" "chr10" = "10" := by decide
example : pyLstripChars "chr" "cc1" = "1" := by decide
example : pyInt " -12 " = some (-12) := by decide
example : pyInt "1a" = none := by decide
example : pyIndex ["a", "b", "a"] "a" = 0 := by decide

/-! ## Error model -/

/-- The kinds of Python exceptions the embedded code can raise.  The spec
names `ValueError` raised by the chromosome functions `InvalidChromosome`,
`ValueError` raised by `Bed` construction `InvalidInterval`, and the
`AssertionError` of `chr2norm` `UnsupportedConvention`. -/
inductive PyErr where
  | ValueError : String → PyErr
  | AssertionError : String → PyErr
  | TypeError : String → PyErr
  | NameError : String → PyErr
deriving DecidableEq

/-- Equality of `Except` values is decidable when it is on both sides; used
to evaluate the embedded functions with `decide`. -/
instance {ε α : Type} [DecidableEq ε] [DecidableEq α] : DecidableEq (Except ε α) := fun x y =>
  match x, y with
  | Except.ok a, Except.ok b =>
    if h : a = b then isTrue (by rw [h]) else isFalse (by intro he; cases he; exact h rfl)
  | Except.error a, Except.error b =>
    if h : a = b then isTrue (by rw [h]) else isFalse (by intro he; cases he; exact h rfl)
  | Except.ok _, Except.error _ => isFalse (by intro he; cases he)
  | Except.error _, Except.ok _ => isFalse (by intro he; cases he)

/-! ## bedtool.py : chromosome normalization -/

/-- `chr2int` of `bedtool.py` on a string input: note the source's
`chrom.strip().lstrip('chr')`, a character-set strip. -/
def chr2int (chrom : String) : Except PyErr Int :=
  let c := pyLstripChars "chr" (pyStrip chrom)
  if c = "X" then Except.ok 23
  else if c = "Y" then Except.ok 24
  else if ["M", "MT", "MITO", "MITOCHONDRIA"].contains (pyUpper c) then Except.ok 25
  else if pyUpper c = "HSCHR6_MHC_COX" then Except.ok 6
  else
    let c2 := if c.toList.contains '_' then (pySplitChar '_' c).headI else c
    match pyInt c2 with
    | some n =>
      if 0 < n ∧ n < 26 then Except.ok n
      else Except.error (PyErr.ValueError ("invalid literal for a chromosome: " ++ c2))
    | none => Except.error (PyErr.ValueError ("invalid literal for a chromosome: " ++ c2))

/-- `int_to_b37chr` of `bedtool.py`. -/
def int_to_b37chr (chrom : Int) : Except PyErr String :=
  if 0 < chrom ∧ chrom < 23 then Except.ok (toString chrom)
  else if chrom = 23 then Except.ok "X"
  else if chrom = 24 then Except.ok "Y"
  else if chrom = 25 then Except.ok "MT"
  else Except.error (PyErr.ValueError "[ERROR] the input was not a chromosome!")

/-- `int_to_hg19chr` of `bedtool.py`. -/
def int_to_hg19chr (chrom : Int) : Except PyErr String :=
  if 0 < chrom ∧ chrom < 23 then Except.ok ("chr" ++ toString chrom)
  else if chrom = 23 then Except.ok "chrX"
  else if chrom = 24 then Except.ok "chrY"
  else if chrom = 25 then Except.ok "chrM"
  else Except.error (PyErr.ValueError "[ERROR] the input was not a chromosome!")

/-- The message of the `AssertionError` raised by `chr2norm` for an
unrecognized convention. -/
def invalidConventionMsg : String :=
  "[ERROR] an invalid convention for the chromosome notation."

/-- `chr2norm` of `bedtool.py`: convert via `chr2int` first, then render in
the requested convention; an unrecognized convention is an
`AssertionError`. -/
def chr2norm (chrom : String) (convention : String) : Except PyErr String :=
  match chr2int chrom with
  | Except.error e => Except.error e
  | Except.ok c =>
    if convention = "b37" then int_to_b37chr c
    else if convention = "hg19" then int_to_hg19chr c
    else Except.error (PyErr.AssertionError invalidConventionMsg)

example : chr2int "chrX" = Except.ok 23 := by decide
example : chr2int "MT" = Except.ok 25 := by decide
example : chr2int "chr1_random" = Except.ok 1 := by decide
example : chr2int "HSCHR6_MHC_COX" = Except.ok 6 := by decide
example : (chr2int "0").isOk = false := by decide
example : (chr2int "26").isOk = false := by decide
example : chr2norm "chr7" "b37" = Except.ok "7" := by decide

/-! ## bedtool.py : Bed records -/

/-- Input accepted by the `Bed` constructor: a line of text or an
already-split sequence of fields. -/
inductive BedInput where
  | ofString : String → BedInput
  | ofList : List String → BedInput

/-- A constructed `Bed` object (`stop` models the source field `end`, a
Lean keyword); the `__bed` tuple is recoverable as
`(chrom, start, stop) ++ extras`. -/
structure BedRec where
  chrom : Option String
  start : Option Int
  stop : Option Int
  extras : List String
deriving DecidableEq

/-- What actually happens when the source runs `Bed.raise_input_error()`:
`raise_input_error` is decorated `@staticmethod` yet declared with a
`self` parameter, so the zero-argument call fails with `TypeError`
(missing positional argument) before its `ValueError` is ever raised. -/
def raiseInputErrorCalled : PyErr :=
  PyErr.TypeError "raise_input_error missing 1 required positional argument: self"

/-- `Bed.__init__` of `bedtool.py`.  A string input is split on whitespace
after `rstrip('\n')`; 0 fields give the null record; 2 fields are
`(start, end)` (with the missing-chromosome warning path hitting the
module's unimported `sys`, a `NameError`); 3+ fields normalize field 0 via
`chr2norm` with the default `b37` convention after parsing fields 1 and 2;
1 field takes the `raise_input_error` path. -/
def Bed_init (obj : BedInput) (warning : Bool) : Except PyErr BedRec :=
  let splitted : List String :=
    match obj with
    | BedInput.ofString s => pySplitWs (pyRstripChars "\n" s)
    | BedInput.ofList l => l
  if splitted.length = 0 then Except.ok ⟨none, none, none, []⟩
  else if splitted.length = 2 then
    match pyInt (splitted.headI), pyInt (splitted.getD 1 "") with
    | some st, some en =>
      if 0 < st ∧ st < 30 ∧ warning then
        Except.error (PyErr.NameError "name sys is not defined")
      else Except.ok ⟨none, some st, some en, []⟩
    | _, _ => Except.error raiseInputErrorCalled
  else if 2 < splitted.length then
    match pyInt (splitted.getD 1 ""), pyInt (splitted.getD 2 "") with
    | some st, some en =>
      match chr2norm splitted.headI "b37" with
      | Except.ok ch => Except.ok ⟨some ch, some st, some en, splitted.drop 3⟩
      | Except.error e => Except.error e
    | _, _ => Except.error raiseInputErrorCalled
  else Except.error raiseInputErrorCalled

example : Bed_init (BedInput.ofString "1\t10000\t20000") false
    = Except.ok ⟨some "1", some 10000, some 20000, []⟩ := by decide
example : Bed_init (BedInput.ofList ["chr1", "10000", "20000", "+"]) false
    = Except.ok ⟨some "1", some 10000, some 20000, ["+"]⟩ := by decide
example : Bed_init (BedInput.ofList []) false = Except.ok ⟨none, none, none, []⟩ := by decide

/-! ## common.py : header/title detection (`check_title`)

The file object is a `List String` of newline-terminated lines plus a
line-index position.  `readline` at index `i` returns line `i` and advances
to `i + 1`, or returns `""` at end of file without moving -- exactly the
positions `tell`/`seek` can observe here, since the source only ever seeks
to values previously returned by `tell` (or to 0), all of which are line
boundaries.  A line index is 0 exactly when the byte offset is 0, so the
`ori_pos != 0` test of the source is preserved. -/

/-- One line as the scanning loop of `check_title` sees it:
`line.rstrip('\n').lstrip(header_mark).split('\t')`. -/
def stripProcess (mark : String) (line : String) : List String :=
  pySplitChar '\t' (pyLstripChars mark (pyRstripChars "\n" line))

/-- `[i.lower().strip() for i in L]` of the source. -/
def lowerProcessed (L : List String) : List String :=
  L.map (fun i => pyStrip (pyLower i))

/-- Step 1 of `check_title`: read lines until one splits into at least
`minc` tab-separated fields or into `[""]` (a blank line or end of file);
lines starting with `mark` accumulate into the header text.  Returns the
final split, its lowercase form, the header text, and the stream position
after the scan.  (At end of file `readline` returns `""`, whose split is
`[""]`, stopping the loop with the position unchanged.) -/
def findTitleLoop (mark : String) (minc : Nat) : List String → Nat → String →
    List String × List String × String × Nat
  | [], pos, hdr => ([""], [""], hdr, pos)
  | line :: rest, pos, hdr =>
    let L := stripProcess mark line
    let hdr2 := if pyStartsWith line mark then hdr ++ line else hdr
    if L.length < minc ∧ L ≠ [""] then findTitleLoop mark minc rest (pos + 1) hdr2
    else (L, lowerProcessed L, hdr2, pos + 1)

/-- Step 2 of `check_title`: keep reading while lines start with `mark`,
appending them to the header text; stop at the first other line (or at end
of file, where `readline` returns `""`, which does not start with the
nonempty mark).  Returns the header text, the last line read (the first
non-mark line), and the stream position just before that line -- the
position the source seeks back to. -/
def absorbLoop (mark : String) : List String → Nat → String → String × String × Nat
  | [], pos, hdr => (hdr, "", pos)
  | line :: rest, pos, hdr =>
    if pyStartsWith line mark then absorbLoop mark rest (pos + 1) (hdr ++ line)
    else (hdr, line, pos)

/-- The name→index part of the `title` dict: an association list where the
newest write is first, so lookup returns the latest write, like a Python
dict.  A value of `none` models a key stored with value `None`. -/
abbrev PyDict := List (String × Option Nat)

/-- Python `title[k]`: `none` is a `KeyError`, `some none` a key holding
`None`, `some (some i)` a key holding index `i`. -/
def dictFind (d : PyDict) (k : String) : Option (Option Nat) :=
  (d.find? (fun p => p.1 == k)).map Prod.snd

/-- Step 3's `title.update({column: L.index(column) for column in L if
column.strip()})`: every non-blank name of `L` is written with the index of
its *first* occurrence (`L.index`); writes of this pass shadow `d`. -/
def dictUpdatePass (d : PyDict) (L : List String) : PyDict :=
  (L.filterMap (fun c =>
    if pyStrip c = "" then none else some (c, some (pyIndex L c)))).reverse ++ d

/-- Step 4 of `check_title` for one pattern `name`: `title[name] = None`,
then the index of the first lowercase column the pattern matches, if any.
`re.match(name, column)` is modelled for literal patterns: an anchored
match is a prefix test; `list_lower.index(column)` is the first occurrence
of the matched string. -/
def specAssign (lower : List String) (d : PyDict) (name : String) : PyDict :=
  match lower.find? (fun column => pyStartsWith column name) with
  | some column => (name, some (pyIndex lower column)) :: (name, none) :: d
  | none => (name, none) :: d

/-- Step 4 of `check_title` over all caller-supplied patterns, in order. -/
def specNamesPass (d : PyDict) (lower : List String) (names : List String) : PyDict :=
  names.foldl (specAssign lower) d

/-- Step 5 of `check_title`: derive sample names from the `format` and
`ori_ref` entries.  The source's `if title['format'] and title['ori_ref']`
raises `KeyError` (caught, leaving samples empty) when `format` is missing,
or when `format` is truthy but the key `ori_ref` was never stored; a value
of `None` or index `0` is falsy.  `range(k+1, j)` over `L` is
`(L.take j).drop (k+1)`; `range(k+1, len(L))` is `L.drop (k+1)`. -/
def deriveSamples (d : PyDict) (L : List String) : List String :=
  match dictFind d "format" with
  | none => []
  | some none => []
  | some (some k) =>
    if k = 0 then []
    else
      match dictFind d "ori_ref" with
      | none => []
      | some none => L.drop (k + 1)
      | some (some j) => if j = 0 then L.drop (k + 1) else (L.take j).drop (k + 1)

/-- The result of `check_title`: the dotted bookkeeping keys of the source's
dict become fields (`len`, `Column_Names`, `column_names`, `samples`,
`header`), `dict` is the name→index part, and `finalPos` is the stream
position when the function returns. -/
structure TitleResult where
  len : Nat
  Column_Names : List String
  column_names : List String
  samples : List String
  header : String
  dict : PyDict
  finalPos : Nat
deriving DecidableEq

/-- Steps 3-6 of `check_title`, given the outcome of the two scanning
loops: `L`/`list_lower` are the final split of step 1, `hdr2` the header
text accumulated through step 2, `line` the last line step 2 read (the
first non-mark line after the title), `pos2` the stream position after the
step-2 seek.  When `L` is `[""]` no title was found and the `.len`,
`.Column_Names`, `.column_names` and `.header += line` updates of step 3
are skipped; the dict update, the pattern pass and the sample derivation
run regardless.  The final position is `ori_pos` when the comeback seek of
step 6 fires, else `pos2`. -/
def check_title_core (L list_lower : List String) (hdr2 line : String)
    (pos2 ori_pos : Nat) (spec_names : List String) (comeback : Bool) : TitleResult :=
  let d1 := dictUpdatePass (dictUpdatePass [] L) list_lower
  let d2 := specNamesPass d1 list_lower spec_names
  { len := if L = [""] then 0 else L.length
    Column_Names := if L = [""] then [] else L
    column_names := if L = [""] then [] else list_lower
    samples := deriveSamples d2 L
    header := if L = [""] then hdr2 else hdr2 ++ line
    dict := d2
    finalPos := if ori_pos ≠ 0 ∧ comeback then ori_pos else pos2 }

/-- `check_title` of `common.py` on a seekable stream.  `file` is the
stream's full contents as lines; `ori_pos` is the stream position at entry
(the value the source reads with `fileobj.tell()` before rewinding to 0).
Step 1 scans from the start of the file, step 2 absorbs the mark-prefixed
lines after the split that stopped the scan, and the remaining steps are
`check_title_core`. -/
def check_title (file : List String) (ori_pos : Nat) (spec_names : List String)
    (comeback : Bool) (min_col_num : Nat) (header_mark : String) : TitleResult :=
  let r1 := findTitleLoop header_mark min_col_num file 0 ""
  let r2 := absorbLoop header_mark (file.drop r1.2.2.2) r1.2.2.2 r1.2.2.1
  check_title_core r1.1 r1.2.1 r2.1 r2.2.1 r2.2.2 ori_pos spec_names comeback

/-! Sanity checks: the docstring example layout, traced through the model. -/

example :
    (check_title ["Name\tAge\tGender\n", "Alice\t30\tF\n"] 0 [] false 3 "#").Column_Names
      = ["Name", "Age", "Gender"] := by decide
example :
    (check_title ["Name\tAge\tGender\n", "Alice\t30\tF\n"] 0 [] false 3 "#").column_names
      = ["name", "age", "gender"] := by decide
example :
    dictFind (check_title ["Name\tAge\tGender\n", "Alice\t30\tF\n"] 0 [] false 3 "#").dict "age"
      = some (some 1) := by decide
example :
    (check_title ["Name\tAge\tGender\n", "Alice\t30\tF\n"] 0 [] false 3 "#").finalPos
      = 1 := by decide
example :
    (check_title ["##a\n", "#CHROM\tPOS\tID\tFORMAT\tS1\tS2\n", "1\t2\tx\tGT\ta\tb\n"]
      0 [] false 3 "#").samples = [] := by decide
example :
    (check_title ["##a\n", "#CHROM\tPOS\tID\tFORMAT\tS1\tS2\n", "1\t2\tx\tGT\ta\tb\n"]
      0 ["format", "ori_ref"] false 3 "#").samples = ["S1", "S2"] := by decide

/-! ## Claim theorems -/

/-- C1.  The claim states that the header text returned by `check_title` is
the mark-prefixed comment lines plus the qualifying title line appended
exactly once, with the data line excluded -- which is also what the
function's own docstring promises (`'.header': 'Name\tAge\tGender\n'` for a
`Name/Age/Gender` title).  On a seekable stream the code does something
else: step 2 overwrites the loop variable `line` (last set to the title
line) with the first non-mark line after the header block, and step 3 then
appends *that* line.  Evaluating the embedded code on the claim's stream
shape (two leading comments, a qualifying unmarked title, one trailing
comment, one data line) shows the header text contains the data line and
not the title line. -/
theorem c1_header_text_evaluation :
    (check_title ["#c1\n", "#c2\n", "Name\tAge\tGender\n", "#c3\n", "Alice\t30\tF\n"]
      0 [] false 3 "#").header = "#c1\n#c2\n#c3\nAlice\t30\tF\n" := by decide

/-- C2.  The claim states that a 1-field input, or a 2-field input whose
fields are not integers, or a 3+-field input whose fields 1 and 2 are not
integers, fails with `InvalidInterval` (the constructor's `ValueError`) and
no other kind of exception.  The code instead calls
`Bed.raise_input_error()`, a `@staticmethod` declared with a `self`
parameter, so every such path raises `TypeError` -- a different exception
kind -- before the intended `ValueError` is reached. -/
theorem c2_bed_error_evaluation :
    Bed_init (BedInput.ofList ["x"]) false = Except.error raiseInputErrorCalled
    ∧ Bed_init (BedInput.ofList ["a", "b"]) false = Except.error raiseInputErrorCalled
    ∧ Bed_init (BedInput.ofString "c\tx\ty") false = Except.error raiseInputErrorCalled
    ∧ raiseInputErrorCalled
        = PyErr.TypeError "raise_input_error missing 1 required positional argument: self" := by
  refine ⟨by decide, by decide, by decide, rfl⟩

/-- C5.  The claim states that `to_canonical_id` (`chr2int`) strips the
prefix `"chr"` exactly, case-sensitively, once, and removes nothing from
inputs that do not begin with `"chr"`.  The code uses `str.lstrip('chr')`,
a character-*set* strip: `"cc1"` and `"rh2"` do not begin with `"chr"`,
yet all their leading `c`/`h`/`r` characters are removed and they map to
chromosomes 1 and 2; `"chrchr3"` has the prefix removed more than once. -/
theorem c5_charset_strip_evaluation :
    chr2int "cc1" = Except.ok 1
    ∧ chr2int "rh2" = Except.ok 2
    ∧ chr2int "chrchr3" = Except.ok 3
    ∧ pyStartsWith "cc1" "chr" = false
    ∧ pyStartsWith "rh2" "chr" = false := by
  refine ⟨by decide, by decide, by decide, by decide, by decide⟩

/-- C3.  For every canonical id 1..25 and both conventions (the spec's
`"ucsc"` is the source's `hg19` rendering, `"genome-reference"` its `b37`
rendering), converting to text and back with `chr2int` returns the same
id. -/
theorem c3_roundtrip (n : Int) (h1 : 1 ≤ n) (h2 : n ≤ 25) :
    (int_to_hg19chr n).bind chr2int = Except.ok n
    ∧ (int_to_b37chr n).bind chr2int = Except.ok n := by
  interval_cases n <;> exact ⟨by decide, by decide⟩

theorem c3_roundtrip_witness :
    (1 : Int) ≤ 14 ∧ (14 : Int) ≤ 25
    ∧ ((int_to_hg19chr 14).bind chr2int = Except.ok 14
       ∧ (int_to_b37chr 14).bind chr2int = Except.ok 14) :=
  ⟨by decide, by decide, c3_roundtrip 14 (by decide) (by decide)⟩

/-- C9.  For every string that `chr2int` maps to a valid canonical id,
`chr2norm` (the spec's `normalize`) with a convention other than the two
recognized ones (`b37`, `hg19`) fails with the `AssertionError` the spec
calls `UnsupportedConvention` -- a different error kind from the
`ValueError` the spec calls `InvalidChromosome`. -/
theorem c9_unsupported_convention (v conv : String) (hok : (chr2int v).isOk = true)
    (hb : conv ≠ "b37") (hh : conv ≠ "hg19") :
    chr2norm v conv = Except.error (PyErr.AssertionError invalidConventionMsg) := by
  cases h : chr2int v with
  | error e => rw [h] at hok; simp [Except.isOk, Except.toBool] at hok
  | ok c => simp only [chr2norm, h]; rw [if_neg hb, if_neg hh]

theorem c9_unsupported_convention_witness :
    (chr2int "chrX").isOk = true ∧ "ucsc" ≠ "b37" ∧ "ucsc" ≠ "hg19"
    ∧ chr2norm "chrX" "ucsc" = Except.error (PyErr.AssertionError invalidConventionMsg) :=
  ⟨by decide, by decide, by decide,
    c9_unsupported_convention "chrX" "ucsc" (by decide) (by decide) (by decide)⟩

/-- C6, counterexample.  The claim says a duplicated non-blank column name
is mapped to the index of its *last* occurrence.  On the title line
`a<TAB>b<TAB>a` the lookup maps `"a"` to 0 (the source stores
`L.index(column)`, the first occurrence), not to 2. -/
theorem c6_counterexample :
    (check_title ["a\tb\ta\n", "x\ty\tz\n"] 0 [] false 3 "#").Column_Names = ["a", "b", "a"]
    ∧ dictFind (check_title ["a\tb\ta\n", "x\ty\tz\n"] 0 [] false 3 "#").dict "a"
        = some (some 0)
    ∧ dictFind (check_title ["a\tb\ta\n", "x\ty\tz\n"] 0 [] false 3 "#").dict "a"
        ≠ some (some 2) := by
  refine ⟨by decide, by decide, by decide⟩

/-- C4, counterexample.  The claim says that when a `format` column is
found at a truthy index and no `ori_ref` was found, the samples are all
column names after the `format` index.  With the title line
`a<TAB>format<TAB>x<TAB>y` and no `spec_names`, `format` is at truthy
index 1 and `ori_ref` is not a key at all, so the source's
`title['format'] and title['ori_ref']` raises `KeyError` and the caught
exception leaves the samples empty -- not `["x", "y"]`. -/
theorem c4_counterexample :
    dictFind (check_title ["a\tformat\tx\ty\n", "1\t2\t3\t4\n"] 0 [] false 3 "#").dict "format"
        = some (some 1)
    ∧ dictFind (check_title ["a\tformat\tx\ty\n", "1\t2\t3\t4\n"] 0 [] false 3 "#").dict "ori_ref"
        = none
    ∧ (check_title ["a\tformat\tx\ty\n", "1\t2\t3\t4\n"] 0 [] false 3 "#").Column_Names
        = ["a", "format", "x", "y"]
    ∧ (check_title ["a\tformat\tx\ty\n", "1\t2\t3\t4\n"] 0 [] false 3 "#").samples = []
    ∧ (check_title ["a\tformat\tx\ty\n", "1\t2\t3\t4\n"] 0 [] false 3 "#").samples
        ≠ ["x", "y"] := by
  refine ⟨by decide, by decide, by decide, by decide, by decide⟩

/-! ## Helper lemmas for the general `check_title` theorems -/

/-- `find?` returns `v` when some element satisfies the predicate and every
element satisfying it equals `v`. -/
theorem list_find_eq_of_uniform {α : Type} (l : List α) (p : α → Bool) (v : α)
    (hex : ∃ x ∈ l, p x = true) (huni : ∀ x ∈ l, p x = true → x = v) :
    l.find? p = some v := by
  induction l with
  | nil => obtain ⟨x, hx, _⟩ := hex; cases hx
  | cons a t ih =>
    by_cases hpa : p a = true
    · rw [List.find?_cons_of_pos _ hpa]
      exact congrArg some (huni a (List.mem_cons_self a t) hpa)
    · rw [List.find?_cons_of_neg _ hpa]
      refine ih ?_ ?_
      · obtain ⟨x, hx, hpx⟩ := hex
        rcases List.mem_cons.mp hx with h | h
        · exact absurd (h ▸ hpx) hpa
        · exact ⟨x, h, hpx⟩
      · intro x hx hpx; exact huni x (List.mem_cons_of_mem a hx) hpx

/-- After a `dictUpdatePass` over `L`, a non-blank name occurring in `L` is
mapped to the index of its first occurrence in `L`, whatever the previous
dict held. -/
theorem dictFind_updatePass_mem (d : PyDict) (L : List String) (name : String)
    (hmem : name ∈ L) (hb : pyStrip name ≠ "") :
    dictFind (dictUpdatePass d L) name = some (some (pyIndex L name)) := by
  unfold dictFind dictUpdatePass
  rw [List.find?_append]
  have hfind :
      ((L.filterMap (fun c =>
        if pyStrip c = "" then none else some (c, some (pyIndex L c)))).reverse).find?
        (fun p => p.1 == name) = some (name, some (pyIndex L name)) := by
    apply list_find_eq_of_uniform
    · refine ⟨(name, some (pyIndex L name)), ?_, by simp⟩
      rw [List.mem_reverse, List.mem_filterMap]
      exact ⟨name, hmem, by rw [if_neg hb]⟩
    · rintro ⟨k, v⟩ hkv hpk
      rw [List.mem_reverse, List.mem_filterMap] at hkv
      obtain ⟨a, _, hfa⟩ := hkv
      by_cases hsa : pyStrip a = ""
      · rw [if_pos hsa] at hfa; cases hfa
      · rw [if_neg hsa] at hfa
        obtain ⟨hk, hv⟩ := Prod.mk.injEq .. ▸ Option.some.injEq .. ▸ hfa
        have hkn : k = name := by simpa using hpk
        subst hk; subst hkn; rw [← hv]
  rw [hfind]
  rfl

/-- A `dictUpdatePass` never stores a blank (empty-after-strip) key, so the
lookup of a blank name falls through to the previous dict. -/
theorem dictFind_updatePass_blank (d : PyDict) (L : List String) (name : String)
    (hb : pyStrip name = "") :
    dictFind (dictUpdatePass d L) name = dictFind d name := by
  unfold dictFind dictUpdatePass
  rw [List.find?_append]
  have hnone :
      ((L.filterMap (fun c =>
        if pyStrip c = "" then none else some (c, some (pyIndex L c)))).reverse).find?
        (fun p => p.1 == name) = none := by
    rw [List.find?_eq_none]
    rintro ⟨k, v⟩ hkv hpk
    rw [List.mem_reverse, List.mem_filterMap] at hkv
    obtain ⟨a, _, hfa⟩ := hkv
    by_cases hsa : pyStrip a = ""
    · rw [if_pos hsa] at hfa; cases hfa
    · rw [if_neg hsa] at hfa
      obtain ⟨hk, _⟩ := Prod.mk.injEq .. ▸ Option.some.injEq .. ▸ hfa
      have hkn : k = name := by simpa using hpk
      exact hsa (by rw [hk, hkn, hb])
  rw [hnone]
  rfl

/-- `specAssign` only writes the key `s`, so other lookups are unchanged. -/
theorem dictFind_specAssign_ne (lower : List String) (d : PyDict) (s name : String)
    (h : name ≠ s) : dictFind (specAssign lower d s) name = dictFind d name := by
  have hne : ((s : String) == name) = false := beq_eq_false_iff_ne.mpr (fun he => h he.symm)
  unfold specAssign dictFind
  cases hf : lower.find? (fun column => pyStartsWith column s) with
  | some column => simp [List.find?_cons, hne]
  | none => simp [List.find?_cons, hne]

/-- The pattern pass only writes the supplied pattern names, so the lookup
of any other name is unchanged. -/
theorem dictFind_specPass_not_mem (d : PyDict) (lower : List String)
    (names : List String) (name : String) (h : name ∉ names) :
    dictFind (specNamesPass d lower names) name = dictFind d name := by
  induction names generalizing d with
  | nil => rfl
  | cons s rest ih =>
    have hs : name ≠ s := fun he => h (he ▸ List.mem_cons_self s rest)
    have hrest : name ∉ rest := fun hm => h (List.mem_cons_of_mem s hm)
    simp only [specNamesPass, List.foldl_cons]
    rw [show List.foldl (specAssign lower) (specAssign lower d s) rest
        = specNamesPass (specAssign lower d s) lower rest from rfl,
      ih (specAssign lower d s) hrest, dictFind_specAssign_ne lower d s name hs]

/-- In `findTitleLoop` the returned lowercase list is always the processed
form of the returned split. -/
theorem findTitleLoop_lower (mark : String) (minc : Nat) :
    ∀ (rest : List String) (pos : Nat) (hdr : String),
    (findTitleLoop mark minc rest pos hdr).2.1
      = lowerProcessed (findTitleLoop mark minc rest pos hdr).1 := by
  intro rest
  induction rest with
  | nil =>
    intro pos hdr
    show ([""] : List String) = lowerProcessed [""]
    decide
  | cons line t ih =>
    intro pos hdr
    simp only [findTitleLoop]
    by_cases hc : (stripProcess mark line).length < minc ∧ stripProcess mark line ≠ [""]
    · rw [if_pos hc]; exact ih _ _
    · rw [if_neg hc]

/-- If no line of the stream splits into `minc` or more fields, the
title-scanning loop exits with the split `[""]` (a blank line or end of
file), never with a title. -/
theorem findTitleLoop_all_small (mark : String) (minc : Nat) :
    ∀ (rest : List String) (pos : Nat) (hdr : String),
    (∀ l ∈ rest, (stripProcess mark l).length < minc) →
    (findTitleLoop mark minc rest pos hdr).1 = [""] := by
  intro rest
  induction rest with
  | nil => intro pos hdr _; rfl
  | cons line t ih =>
    intro pos hdr hall
    have hsmall := hall line (List.mem_cons_self line t)
    simp only [findTitleLoop]
    by_cases hE : stripProcess mark line = [""]
    · rw [if_neg (by simp [hE])]
      exact hE
    · rw [if_pos ⟨hsmall, hE⟩]
      exact ih _ _ (fun l hl => hall l (List.mem_cons_of_mem line hl))

/-- `check_title` is `check_title_core` applied to the outcome of the two
scanning loops (definitional repackaging used to reason about the pure
steps 3-6 separately from the stream scan). -/
theorem check_title_as_core (file : List String) (ori : Nat) (spec : List String)
    (cb : Bool) (minc : Nat) (mark : String) :
    check_title file ori spec cb minc mark
      = check_title_core (findTitleLoop mark minc file 0 "").1
          (findTitleLoop mark minc file 0 "").2.1
          (absorbLoop mark (file.drop (findTitleLoop mark minc file 0 "").2.2.2)
            (findTitleLoop mark minc file 0 "").2.2.2
            (findTitleLoop mark minc file 0 "").2.2.1).1
          (absorbLoop mark (file.drop (findTitleLoop mark minc file 0 "").2.2.2)
            (findTitleLoop mark minc file 0 "").2.2.2
            (findTitleLoop mark minc file 0 "").2.2.1).2.1
          (absorbLoop mark (file.drop (findTitleLoop mark minc file 0 "").2.2.2)
            (findTitleLoop mark minc file 0 "").2.2.2
            (findTitleLoop mark minc file 0 "").2.2.1).2.2
          ori spec cb := rfl

theorem core_dict (L lower : List String) (hdr line : String) (pos2 ori : Nat)
    (spec : List String) (cb : Bool) :
    (check_title_core L lower hdr line pos2 ori spec cb).dict
      = specNamesPass (dictUpdatePass (dictUpdatePass [] L) lower) lower spec := rfl

theorem core_samples (L lower : List String) (hdr line : String) (pos2 ori : Nat)
    (spec : List String) (cb : Bool) :
    (check_title_core L lower hdr line pos2 ori spec cb).samples
      = deriveSamples (specNamesPass (dictUpdatePass (dictUpdatePass [] L) lower) lower spec)
          L := rfl

theorem core_len (L lower : List String) (hdr line : String) (pos2 ori : Nat)
    (spec : List String) (cb : Bool) :
    (check_title_core L lower hdr line pos2 ori spec cb).len
      = if L = [""] then 0 else L.length := rfl

theorem core_Column_Names (L lower : List String) (hdr line : String) (pos2 ori : Nat)
    (spec : List String) (cb : Bool) :
    (check_title_core L lower hdr line pos2 ori spec cb).Column_Names
      = if L = [""] then [] else L := rfl

theorem core_column_names (L lower : List String) (hdr line : String) (pos2 ori : Nat)
    (spec : List String) (cb : Bool) :
    (check_title_core L lower hdr line pos2 ori spec cb).column_names
      = if L = [""] then [] else lower := rfl

theorem core_finalPos (L lower : List String) (hdr line : String) (pos2 ori : Nat)
    (spec : List String) (cb : Bool) :
    (check_title_core L lower hdr line pos2 ori spec cb).finalPos
      = if ori ≠ 0 ∧ cb then ori else pos2 := rfl

theorem specNamesPass_nil (d : PyDict) (lower : List String) :
    specNamesPass d lower [] = d := rfl

/-- Lookup in a dict with a fresh entry in front. -/
theorem dictFind_cons (k : String) (v : Option Nat) (d : PyDict) (key : String) :
    dictFind ((k, v) :: d) key = if (k == key) = true then some v else dictFind d key := by
  rcases Bool.eq_false_or_eq_true (k == key) with h | h
  · simp [dictFind, List.find?_cons, h]
  · simp [dictFind, List.find?_cons, h]

/-- The empty string starts with no nonempty pattern. -/
theorem pyStartsWith_of_empty (s : String) (h : s ≠ "") : pyStartsWith "" s = false := by
  cases s with
  | mk l =>
    cases l with
    | nil => exact absurd (by decide) h
    | cons c cs => rfl

/-- Scanning patterns over the lowercase list `[""]` (the no-title case)
cannot make the `format` entry truthy: it stays absent or `None`. -/
theorem specPass_format_falsy (spec : List String) : ∀ d : PyDict,
    (dictFind d "format" = none ∨ dictFind d "format" = some none) →
    (dictFind (specNamesPass d [""] spec) "format" = none
      ∨ dictFind (specNamesPass d [""] spec) "format" = some none) := by
  induction spec with
  | nil => intro d h; exact h
  | cons s rest ih =>
    intro d h
    simp only [specNamesPass, List.foldl_cons]
    rw [show List.foldl (specAssign [""]) (specAssign [""] d s) rest
        = specNamesPass (specAssign [""] d s) [""] rest from rfl]
    refine ih (specAssign [""] d s) ?_
    by_cases hs : s = ""
    · subst hs
      rw [show specAssign [""] d ""
          = ("", some (pyIndex [""] "")) :: ("", none) :: d from rfl]
      rw [dictFind_cons, if_neg (by decide), dictFind_cons, if_neg (by decide)]
      exact h
    · have hfind : List.find? (fun column => pyStartsWith column s) [""] = none := by
        rw [List.find?_cons_of_neg _ (by rw [pyStartsWith_of_empty s hs]; exact Bool.false_ne_true)]
        rfl
      rw [show specAssign [""] d s
          = match List.find? (fun column => pyStartsWith column s) [""] with
            | some column => (s, some (pyIndex [""] column)) :: (s, none) :: d
            | none => (s, none) :: d from rfl, hfind]
      rw [dictFind_cons]
      by_cases hsf : ((s : String) == "format") = true
      · rw [if_pos hsf]; exact Or.inr rfl
      · rw [if_neg hsf]; exact h

/-- C6, amended.  The name→index lookup maps every non-blank name of the
lowercase column list to the index of its *first* occurrence in that list
(the source stores `L.index(column)`, the first index, for each
occurrence, and the lowercase pass is written last so it takes precedence
over original-case entries of the same string); stated with no
`spec_names`, which could overwrite arbitrary keys. -/
theorem c6_first_occurrence (file : List String) (ori : Nat) (cb : Bool)
    (minc : Nat) (mark name : String)
    (hmem : name ∈ (check_title file ori [] cb minc mark).column_names)
    (hb : pyStrip name ≠ "") :
    dictFind (check_title file ori [] cb minc mark).dict name
      = some (some (pyIndex (check_title file ori [] cb minc mark).column_names name)) := by
  rw [check_title_as_core] at hmem ⊢
  rw [core_column_names] at hmem ⊢
  rw [core_dict, specNamesPass_nil]
  by_cases hE : (findTitleLoop mark minc file 0 "").1 = [""]
  · rw [if_pos hE] at hmem; cases hmem
  · rw [if_neg hE] at hmem ⊢
    exact dictFind_updatePass_mem _ _ name hmem hb

theorem c6_first_occurrence_witness :
    ("a" ∈ (check_title ["a\tb\ta\n", "x\ty\tz\n"] 0 [] false 3 "#").column_names)
    ∧ pyStrip "a" ≠ ""
    ∧ dictFind (check_title ["a\tb\ta\n", "x\ty\tz\n"] 0 [] false 3 "#").dict "a"
        = some (some (pyIndex
            (check_title ["a\tb\ta\n", "x\ty\tz\n"] 0 [] false 3 "#").column_names "a")) :=
  ⟨by decide, by decide,
    c6_first_occurrence ["a\tb\ta\n", "x\ty\tz\n"] 0 false 3 "#" "a" (by decide) (by decide)⟩

/-- C10.  A column name that is empty or whitespace-only gets no entry in
the name→index lookup (the `if column.strip()` guard skips it, and blank
strings are not valid pattern names here), yet it still counts in
`column_count` and keeps its position: both name lists have exactly
`column_count` entries. -/
theorem c10_blank_name_unmapped (file : List String) (ori : Nat) (spec : List String)
    (cb : Bool) (minc : Nat) (mark name : String)
    (hb : pyStrip name = "") (hs : name ∉ spec) :
    dictFind (check_title file ori spec cb minc mark).dict name = none
    ∧ (check_title file ori spec cb minc mark).len
        = (check_title file ori spec cb minc mark).Column_Names.length
    ∧ (check_title file ori spec cb minc mark).column_names.length
        = (check_title file ori spec cb minc mark).Column_Names.length := by
  rw [check_title_as_core]
  refine ⟨?_, ?_, ?_⟩
  · rw [core_dict, dictFind_specPass_not_mem _ _ _ _ hs,
      dictFind_updatePass_blank _ _ _ hb, dictFind_updatePass_blank _ _ _ hb]
    rfl
  · rw [core_len, core_Column_Names]
    by_cases hE : (findTitleLoop mark minc file 0 "").1 = [""]
    · rw [if_pos hE, if_pos hE]; rfl
    · rw [if_neg hE, if_neg hE]
  · rw [core_column_names, core_Column_Names]
    by_cases hE : (findTitleLoop mark minc file 0 "").1 = [""]
    · rw [if_pos hE, if_pos hE]
    · rw [if_neg hE, if_neg hE, findTitleLoop_lower mark minc file 0 ""]
      simp [lowerProcessed]

theorem c10_blank_name_unmapped_witness :
    pyStrip " " = "" ∧ (" " ∉ ([] : List String))
    ∧ (dictFind (check_title ["a\t \tc\n", "1\t2\t3\n"] 0 [] false 3 "#").dict " " = none
       ∧ (check_title ["a\t \tc\n", "1\t2\t3\n"] 0 [] false 3 "#").len
           = (check_title ["a\t \tc\n", "1\t2\t3\n"] 0 [] false 3 "#").Column_Names.length
       ∧ (check_title ["a\t \tc\n", "1\t2\t3\n"] 0 [] false 3 "#").column_names.length
           = (check_title ["a\t \tc\n", "1\t2\t3\n"] 0 [] false 3 "#").Column_Names.length) :=
  ⟨by decide, by decide,
    c10_blank_name_unmapped ["a\t \tc\n", "1\t2\t3\n"] 0 [] false 3 "#" " "
      (by decide) (by decide)⟩

/-- C7.  On any finite stream none of whose lines splits into
`min_col_num` or more fields (for example a stream of blank lines, whose
processed split is `[""]`), the scanning loop exits -- on a blank line or
on the empty read at end of stream -- and `check_title` returns a result
with zero columns, empty name lists and no samples, rather than looping
forever.  (Termination itself is witnessed by `check_title` being a total
function of the finite stream.) -/
theorem c7_no_title_zero_columns (file : List String) (ori : Nat) (spec : List String)
    (cb : Bool) (minc : Nat) (mark : String)
    (hlines : ∀ l ∈ file, (stripProcess mark l).length < minc) :
    (check_title file ori spec cb minc mark).len = 0
    ∧ (check_title file ori spec cb minc mark).Column_Names = []
    ∧ (check_title file ori spec cb minc mark).column_names = []
    ∧ (check_title file ori spec cb minc mark).samples = [] := by
  have hL : (findTitleLoop mark minc file 0 "").1 = [""] :=
    findTitleLoop_all_small mark minc file 0 "" hlines
  have hlow : (findTitleLoop mark minc file 0 "").2.1 = [""] := by
    rw [findTitleLoop_lower mark minc file 0 "", hL]; decide
  rw [check_title_as_core]
  refine ⟨?_, ?_, ?_, ?_⟩
  · rw [core_len, if_pos hL]
  · rw [core_Column_Names, if_pos hL]
  · rw [core_column_names, if_pos hL]
  · rw [core_samples, hL, hlow]
    have hbase : dictFind (dictUpdatePass (dictUpdatePass [] [""]) [""]) "format" = none := by
      decide
    rcases specPass_format_falsy spec _ (Or.inl hbase) with hp | hp
    · simp [deriveSamples, hp]
    · simp [deriveSamples, hp]

theorem c7_no_title_zero_columns_witness :
    (∀ l ∈ ["\n", "\n", "\n"], (stripProcess "#" l).length < 3)
    ∧ ((check_title ["\n", "\n", "\n"] 0 [] false 3 "#").len = 0
       ∧ (check_title ["\n", "\n", "\n"] 0 [] false 3 "#").Column_Names = []
       ∧ (check_title ["\n", "\n", "\n"] 0 [] false 3 "#").column_names = []
       ∧ (check_title ["\n", "\n", "\n"] 0 [] false 3 "#").samples = []) :=
  ⟨by decide, c7_no_title_zero_columns ["\n", "\n", "\n"] 0 [] false 3 "#" (by decide)⟩

/-! ## Sample derivation (claim C4) -/

theorem deriveSamples_format_missing (d : PyDict) (L : List String)
    (h : dictFind d "format" = none) : deriveSamples d L = [] := by
  simp [deriveSamples, h]

theorem deriveSamples_format_falsy (d : PyDict) (L : List String)
    (h : dictFind d "format" = some none ∨ dictFind d "format" = some (some 0)) :
    deriveSamples d L = [] := by
  rcases h with h | h <;> simp [deriveSamples, h]

theorem deriveSamples_oriRef_missing (d : PyDict) (L : List String) (k : Nat)
    (hf : dictFind d "format" = some (some k)) (hk : k ≠ 0)
    (hr : dictFind d "ori_ref" = none) : deriveSamples d L = [] := by
  simp [deriveSamples, hf, hr, hk]

theorem deriveSamples_oriRef_falsy (d : PyDict) (L : List String) (k : Nat)
    (hf : dictFind d "format" = some (some k)) (hk : k ≠ 0)
    (hr : dictFind d "ori_ref" = some none ∨ dictFind d "ori_ref" = some (some 0)) :
    deriveSamples d L = L.drop (k + 1) := by
  rcases hr with hr | hr <;> simp [deriveSamples, hf, hr, hk]

theorem deriveSamples_both_truthy (d : PyDict) (L : List String) (k j : Nat)
    (hf : dictFind d "format" = some (some k)) (hk : k ≠ 0)
    (hr : dictFind d "ori_ref" = some (some j)) (hj : j ≠ 0) :
    deriveSamples d L = (L.take j).drop (k + 1) := by
  simp [deriveSamples, hf, hr, hk, hj]

/-- C4, amended.  Sample derivation as the code performs it: when `format`
is stored at a truthy (nonzero) index and `ori_ref` is stored at a truthy
index, samples are the column names strictly between them; when `format`
is truthy and `ori_ref` is *stored but falsy* (`None` or index 0, e.g. an
unmatched `ori_ref` pattern from `spec_names`), samples are all column
names after the `format` index; when `format` is truthy but `ori_ref` was
never stored at all, the lookup raises the caught `KeyError` and samples
are empty (this is where the claim fails); and when `format` is missing or
falsy -- in particular at the boundary index 0 -- derivation is skipped
and samples are empty. -/
theorem c4_sample_derivation (file : List String) (ori : Nat) (spec : List String)
    (cb : Bool) (minc : Nat) (mark : String) :
    (∀ k j, dictFind (check_title file ori spec cb minc mark).dict "format" = some (some k) →
      k ≠ 0 →
      dictFind (check_title file ori spec cb minc mark).dict "ori_ref" = some (some j) →
      j ≠ 0 → 0 < (check_title file ori spec cb minc mark).len →
      (check_title file ori spec cb minc mark).samples
        = (((check_title file ori spec cb minc mark).Column_Names.take j).drop (k + 1)))
    ∧ (∀ k, dictFind (check_title file ori spec cb minc mark).dict "format" = some (some k) →
      k ≠ 0 →
      (dictFind (check_title file ori spec cb minc mark).dict "ori_ref" = some none
        ∨ dictFind (check_title file ori spec cb minc mark).dict "ori_ref" = some (some 0)) →
      0 < (check_title file ori spec cb minc mark).len →
      (check_title file ori spec cb minc mark).samples
        = (check_title file ori spec cb minc mark).Column_Names.drop (k + 1))
    ∧ (∀ k, dictFind (check_title file ori spec cb minc mark).dict "format" = some (some k) →
      k ≠ 0 →
      dictFind (check_title file ori spec cb minc mark).dict "ori_ref" = none →
      (check_title file ori spec cb minc mark).samples = [])
    ∧ ((dictFind (check_title file ori spec cb minc mark).dict "format" = none
        ∨ dictFind (check_title file ori spec cb minc mark).dict "format" = some none
        ∨ dictFind (check_title file ori spec cb minc mark).dict "format" = some (some 0)) →
      (check_title file ori spec cb minc mark).samples = []) := by
  rw [check_title_as_core]
  rw [core_dict, core_samples, core_Column_Names, core_len]
  refine ⟨?_, ?_, ?_, ?_⟩
  · intro k j hf hk hr hj hlen
    by_cases hE : (findTitleLoop mark minc file 0 "").1 = [""]
    · rw [if_pos hE] at hlen; exact absurd hlen (by omega)
    · rw [if_neg hE]; exact deriveSamples_both_truthy _ _ k j hf hk hr hj
  · intro k hf hk hr hlen
    by_cases hE : (findTitleLoop mark minc file 0 "").1 = [""]
    · rw [if_pos hE] at hlen; exact absurd hlen (by omega)
    · rw [if_neg hE]; exact deriveSamples_oriRef_falsy _ _ k hf hk hr
  · intro k hf hk hr
    exact deriveSamples_oriRef_missing _ _ k hf hk hr
  · intro h
    rcases h with h | h | h
    · exact deriveSamples_format_missing _ _ h
    · exact deriveSamples_format_falsy _ _ (Or.inl h)
    · exact deriveSamples_format_falsy _ _ (Or.inr h)

theorem c4_sample_derivation_witness :
    dictFind (check_title ["a\tformat\tx\tori_ref\n", "1\t2\t3\t4\n"] 0 [] false 3 "#").dict
        "format" = some (some 1)
    ∧ (1 : Nat) ≠ 0
    ∧ dictFind (check_title ["a\tformat\tx\tori_ref\n", "1\t2\t3\t4\n"] 0 [] false 3 "#").dict
        "ori_ref" = some (some 3)
    ∧ (3 : Nat) ≠ 0
    ∧ 0 < (check_title ["a\tformat\tx\tori_ref\n", "1\t2\t3\t4\n"] 0 [] false 3 "#").len
    ∧ (check_title ["a\tformat\tx\tori_ref\n", "1\t2\t3\t4\n"] 0 [] false 3 "#").samples
        = ((TitleResult.Column_Names
            (check_title ["a\tformat\tx\tori_ref\n", "1\t2\t3\t4\n"] 0 [] false 3 "#")).take
              3).drop 2 :=
  ⟨by decide, by decide, by decide, by decide, by decide,
    (c4_sample_derivation ["a\tformat\tx\tori_ref\n", "1\t2\t3\t4\n"] 0 [] false 3 "#").1
      1 3 (by decide) (by decide) (by decide) (by decide) (by decide)⟩

/-! ## Stream positioning (claim C8) -/

/-- When the stream is a run of non-qualifying mark-prefixed comment lines
followed by a qualifying title line, the scanning loop stops exactly at the
title line: it returns the title's split and the position just after it. -/
theorem findTitleLoop_shape (mark : String) (minc : Nat) (titleLine : String)
    (tl : List String) (ht : minc ≤ (stripProcess mark titleLine).length) :
    ∀ (cs : List String) (pos : Nat) (hdr : String),
    (∀ c ∈ cs, pyStartsWith c mark = true ∧ (stripProcess mark c).length < minc
      ∧ stripProcess mark c ≠ [""]) →
    ∃ hdr2, findTitleLoop mark minc (cs ++ titleLine :: tl) pos hdr
      = (stripProcess mark titleLine, lowerProcessed (stripProcess mark titleLine), hdr2,
         pos + cs.length + 1) := by
  intro cs
  induction cs with
  | nil =>
    intro pos hdr _
    refine ⟨if pyStartsWith titleLine mark then hdr ++ titleLine else hdr, ?_⟩
    simp only [List.nil_append, findTitleLoop]
    rw [if_neg (by intro hcon; exact absurd hcon.1 (by omega))]
    simp
  | cons c cs ih =>
    intro pos hdr hall
    obtain ⟨hcm, hcs, hcne⟩ := hall c (List.mem_cons_self c cs)
    obtain ⟨hdr2, hrec⟩ := ih (pos + 1) (if pyStartsWith c mark then hdr ++ c else hdr)
      (fun x hx => hall x (List.mem_cons_of_mem c hx))
    refine ⟨hdr2, ?_⟩
    simp only [List.cons_append, findTitleLoop, List.append_eq]
    rw [if_pos ⟨hcs, hcne⟩, hrec]
    have harith : pos + 1 + cs.length + 1 = pos + (c :: cs).length + 1 := by
      simp only [List.length_cons]; omega
    rw [harith]

/-- When the lines after the title are a run of mark-prefixed comments
followed by a non-mark data line, the absorbing loop stops just before the
data line and reports it as the last line read. -/
theorem absorbLoop_shape (mark dataLine : String) (rest : List String)
    (hd : pyStartsWith dataLine mark = false) :
    ∀ (cs : List String) (pos : Nat) (hdr : String),
    (∀ c ∈ cs, pyStartsWith c mark = true) →
    ∃ hdr2, absorbLoop mark (cs ++ dataLine :: rest) pos hdr
      = (hdr2, dataLine, pos + cs.length) := by
  intro cs
  induction cs with
  | nil =>
    intro pos hdr _
    refine ⟨hdr, ?_⟩
    simp only [List.nil_append, absorbLoop]
    rw [if_neg (by rw [hd]; exact Bool.false_ne_true)]
    simp
  | cons c cs ih =>
    intro pos hdr hall
    obtain ⟨hdr2, hrec⟩ := ih (pos + 1) (hdr ++ c)
      (fun x hx => hall x (List.mem_cons_of_mem c hx))
    refine ⟨hdr2, ?_⟩
    simp only [List.cons_append, absorbLoop, List.append_eq]
    rw [if_pos (hall c (List.mem_cons_self c cs)), hrec]
    have harith : pos + 1 + cs.length = pos + (c :: cs).length := by
      simp only [List.length_cons]; omega
    rw [harith]

/-- Reading the shaped stream at the position after the header block
returns the data line. -/
theorem getD_after_block (cs1 : List String) (titleLine : String) (cs2 : List String)
    (dataLine : String) (rest : List String) :
    (cs1 ++ titleLine :: (cs2 ++ dataLine :: rest)).getD (cs1.length + 1 + cs2.length) ""
      = dataLine := by
  have hshape : cs1 ++ titleLine :: (cs2 ++ dataLine :: rest)
      = (cs1 ++ titleLine :: cs2) ++ dataLine :: rest := by simp
  have hlen : (cs1 ++ titleLine :: cs2).length = cs1.length + 1 + cs2.length := by
    simp only [List.length_append, List.length_cons]; omega
  rw [hshape, ← hlen, List.getD_eq_getElem?_getD,
    List.getElem?_append_right (Nat.le_refl _)]
  simp

/-- C8.  On a seekable stream made of non-qualifying comment lines, a
qualifying title line, trailing comment lines, a data line and anything
after: if `comeback` is set and the entry position was nonzero, the stream
is restored to the entry position; otherwise it is left just after the
header block (leading comments, title, trailing comments), where the next
read returns the data line. -/
theorem c8_stream_positioning (cs1 : List String) (titleLine : String) (cs2 : List String)
    (dataLine : String) (rest : List String) (ori : Nat) (spec : List String)
    (cb : Bool) (minc : Nat) (mark : String)
    (hc1 : ∀ c ∈ cs1, pyStartsWith c mark = true ∧ (stripProcess mark c).length < minc
      ∧ stripProcess mark c ≠ [""])
    (ht : minc ≤ (stripProcess mark titleLine).length)
    (hc2 : ∀ c ∈ cs2, pyStartsWith c mark = true)
    (hd : pyStartsWith dataLine mark = false) :
    (cb = true → ori ≠ 0 →
      (check_title (cs1 ++ titleLine :: (cs2 ++ dataLine :: rest)) ori spec cb minc
        mark).finalPos = ori)
    ∧ ((cb = false ∨ ori = 0) →
      (check_title (cs1 ++ titleLine :: (cs2 ++ dataLine :: rest)) ori spec cb minc
          mark).finalPos = cs1.length + 1 + cs2.length
      ∧ (cs1 ++ titleLine :: (cs2 ++ dataLine :: rest)).getD
          (check_title (cs1 ++ titleLine :: (cs2 ++ dataLine :: rest)) ori spec cb minc
            mark).finalPos "" = dataLine) := by
  obtain ⟨hdr1, hfd⟩ :=
    findTitleLoop_shape mark minc titleLine (cs2 ++ dataLine :: rest) ht cs1 0 "" hc1
  have hpos1 : (findTitleLoop mark minc (cs1 ++ titleLine :: (cs2 ++ dataLine :: rest))
      0 "").2.2.2 = cs1.length + 1 := by
    rw [hfd]
    show 0 + cs1.length + 1 = cs1.length + 1
    omega
  have hdrop : (cs1 ++ titleLine :: (cs2 ++ dataLine :: rest)).drop (cs1.length + 1)
      = cs2 ++ dataLine :: rest := by
    rw [show cs1 ++ titleLine :: (cs2 ++ dataLine :: rest)
        = (cs1 ++ [titleLine]) ++ (cs2 ++ dataLine :: rest) from by simp]
    rw [show cs1.length + 1 = (cs1 ++ [titleLine]).length from by simp]
    exact List.drop_left _ _
  obtain ⟨hdr2, hab⟩ := absorbLoop_shape mark dataLine rest hd cs2 (cs1.length + 1)
    ((findTitleLoop mark minc (cs1 ++ titleLine :: (cs2 ++ dataLine :: rest)) 0 "").2.2.1) hc2
  have hfin : ∀ oriP spcP cbP,
      (check_title (cs1 ++ titleLine :: (cs2 ++ dataLine :: rest)) oriP spcP cbP minc
        mark).finalPos
        = if oriP ≠ 0 ∧ cbP then oriP else cs1.length + 1 + cs2.length := by
    intro oriP spcP cbP
    rw [check_title_as_core, core_finalPos, hpos1, hdrop, hab]
  constructor
  · intro hcb hori
    rw [hfin, if_pos ⟨hori, hcb⟩]
  · intro hor
    have hneg : ¬(ori ≠ 0 ∧ cb = true) := by
      rcases hor with h | h
      · rintro ⟨_, hcb⟩; rw [h] at hcb; exact Bool.false_ne_true hcb
      · rintro ⟨hne, _⟩; exact hne h
    refine ⟨by rw [hfin, if_neg hneg], ?_⟩
    rw [hfin, if_neg hneg]
    exact getD_after_block cs1 titleLine cs2 dataLine rest

theorem c8_stream_positioning_witness :
    (∀ c ∈ ["#h\n"], pyStartsWith c "#" = true ∧ (stripProcess "#" c).length < 3
        ∧ stripProcess "#" c ≠ [""])
    ∧ 3 ≤ (stripProcess "#" "a\tb\tc\n").length
    ∧ (∀ c ∈ ["#t\n"], pyStartsWith c "#" = true)
    ∧ pyStartsWith "1\t2\t3\n" "#" = false
    ∧ ((false = true → (0 : Nat) ≠ 0 →
        (check_title ["#h\n", "a\tb\tc\n", "#t\n", "1\t2\t3\n"] 0 [] false 3 "#").finalPos = 0)
       ∧ ((false = false ∨ (0 : Nat) = 0) →
        (check_title ["#h\n", "a\tb\tc\n", "#t\n", "1\t2\t3\n"] 0 [] false 3 "#").finalPos = 3
        ∧ (["#h\n", "a\tb\tc\n", "#t\n", "1\t2\t3\n"] :
            List String).getD
            (check_title ["#h\n", "a\tb\tc\n", "#t\n", "1\t2\t3\n"] 0 [] false 3 "#").finalPos
            "" = "1\t2\t3\n")) :=
  ⟨by decide, by decide, by decide, by decide,
    c8_stream_positioning ["#h\n"] "a\tb\tc\n" ["#t\n"] "1\t2\t3\n" [] 0 [] false 3 "#"
      (by decide) (by decide) (by decide) (by decide)⟩
